import Mathlib

/-!
Shallow embedding of the `brain` retrieval-augmented chat backend
(`src/backend`): the persisted interaction record (`database/models.py`),
the feedback endpoint (`routers/feedback.py`), and the chat endpoints with
their in-memory conversation store (`routers/chat.py`).

Python-level effects are made explicit: the SQLAlchemy store is a list of
records, randomness (uuid4 draws) and clock reads are parameters, and
HTTP exceptions are `Except` values.
-/

namespace Brain

/-- An HTTP error as raised by `HTTPException(status_code, detail)`. -/
structure HttpError where
  status : Nat
  detail : String
deriving Repr, DecidableEq

/-- One row of the `feedback_interactions` table
(`database/models.py`, class `FeedbackInteraction`).
Timestamps are integer seconds. -/
structure FeedbackInteraction where
  id : String
  user_id : String
  session_id : String
  message_id : String
  timestamp : Int
  question : String
  response : String
  provider_used : Option String
  tokens_used : Option Nat
  feedback_type : Option String
  feedback_comment : Option String
  feedback_timestamp : Option Int
deriving Repr, DecidableEq

/-- The persisted store: the rows of the single table, in insertion order. -/
abbrev Store := List FeedbackInteraction

/-- The request body of `POST /api/feedback/submit` (`FeedbackSubmit`). -/
structure FeedbackSubmit where
  message_id : String
  feedback_type : String
  feedback_comment : Option String
deriving Repr, DecidableEq

/-- The success JSON returned by `submit_feedback`. -/
structure SubmitOk where
  success : Bool
  message : String
  message_id : String
  feedback_type : String
deriving Repr, DecidableEq

/-- `db.query(FeedbackInteraction).filter(message_id == mid).first()`:
first stored row whose `message_id` matches. -/
def findInteraction (store : Store) (mid : String) : Option FeedbackInteraction :=
  store.find? (fun r => r.message_id == mid)

/-- The three assignments of `submit_feedback` (feedback.py lines 61-63):
set `feedback_type`, `feedback_comment`, `feedback_timestamp`; everything
else is left alone. -/
def applyFeedback (r : FeedbackInteraction) (fb : FeedbackSubmit) (now : Int) :
    FeedbackInteraction :=
  { r with
    feedback_type := some fb.feedback_type
    feedback_comment := fb.feedback_comment
    feedback_timestamp := some now }

/-- Mutating the ORM object returned by `.first()` and committing: the first
row matching `fb.message_id` is updated in place, the rest are untouched. -/
def updateFirst : Store → FeedbackSubmit → Int → Store
  | [], _, _ => []
  | r :: rs, fb, now =>
    if r.message_id == fb.message_id then applyFeedback r fb now :: rs
    else r :: updateFirst rs fb now

/-- `submit_feedback` (feedback.py lines 30-74): reject a `feedback_type`
outside the two accepted values with 400, look the message up, 404 when
absent, otherwise overwrite the feedback fields and commit. `now` is the
`datetime.utcnow()` read. -/
def submit_feedback (store : Store) (fb : FeedbackSubmit) (now : Int) :
    Except HttpError SubmitOk × Store :=
  if !(fb.feedback_type == "thumbs_up" || fb.feedback_type == "thumbs_down") then
    (.error { status := 400, detail := "feedback_type must be thumbs_up or thumbs_down" },
     store)
  else
    match findInteraction store fb.message_id with
    | none => (.error { status := 404, detail := "Message not found" }, store)
    | some _ =>
      (.ok { success := true
             message := "Feedback submitted successfully"
             message_id := fb.message_id
             feedback_type := fb.feedback_type },
       updateFirst store fb now)

/-- The fields of a record other than the three feedback fields agree:
used to state that feedback submission touches nothing else. -/
def sameCore (a b : FeedbackInteraction) : Prop :=
  a.id = b.id ∧ a.user_id = b.user_id ∧ a.session_id = b.session_id ∧
  a.message_id = b.message_id ∧ a.timestamp = b.timestamp ∧
  a.question = b.question ∧ a.response = b.response ∧
  a.provider_used = b.provider_used ∧ a.tokens_used = b.tokens_used

/-- Running a sequence of feedback submissions (each a body plus its
`datetime.utcnow()` read), threading the store through. -/
def submitAll (store : Store) (subs : List (FeedbackSubmit × Int)) : Store :=
  subs.foldl (fun s p => (submit_feedback s p.1 p.2).2) store

/-- A concrete stored interaction, used to exercise the theorems. -/
def sampleRecord : FeedbackInteraction :=
  { id := "i1", user_id := "u", session_id := "s", message_id := "m1",
    timestamp := 0, question := "q", response := "a",
    provider_used := some "gemini", tokens_used := none,
    feedback_type := none, feedback_comment := none, feedback_timestamp := none }

/-- A concrete one-row store. -/
def sampleStore : Store := [sampleRecord]

/-- `ChatMessage` of chat.py: one turn of the client-supplied history. -/
structure ChatMessage where
  role : String
  content : String
deriving Repr, DecidableEq

/-- `Message` of `llm/base.py` as used by chat.py: a prompt message. -/
structure Message where
  role : String
  content : String
deriving Repr, DecidableEq

/-- `Source` of chat.py: one retrieved document reference. -/
structure Source where
  title : String
  url : String
  content : String
deriving Repr, DecidableEq

/-- `LLMResponse` as produced by the providers (see
`llm/gemini_provider.py`): content, model, provider, token count and
finish reason. -/
structure LLMResponse where
  content : String
  model : String
  provider : String
  tokens_used : Option Nat
  finish_reason : String
  errMsg : Option String
deriving Repr, DecidableEq

/-- `ChatRequest` of chat.py. -/
structure ChatRequest where
  message : String
  conversation_history : List ChatMessage
  session_id : Option String
  provider : Option String
  user_id : Option String
deriving Repr, DecidableEq

/-- `ChatResponse` of chat.py. -/
structure ChatResponse where
  response : String
  sources : List Source
  session_id : String
  success : Bool
  provider_used : String
  tokens_used : Option Nat
  message_id : String
deriving Repr, DecidableEq

/-- One entry of a session's in-memory history list (chat.py lines 245-259). -/
structure HistoryEntry where
  id : String
  role : String
  content : String
  timestamp : Int
  provider : Option String
deriving Repr, DecidableEq

/-- The per-session value of the `conversations` dict (chat.py lines 93-98). -/
structure SessionData where
  created_at : Int
  history : List HistoryEntry
  message_count : Nat
deriving Repr, DecidableEq

/-- The module-level `conversations` dict: session id to session data, in
insertion order, keys unique. -/
abbrev Conversations := List (String × SessionData)

/-- The ambient effects of one `chat` call, made explicit: the uuid4 draws
(fresh hex strings), the clock, the retriever output, the configured
system prompt, the LLM factory as a function of the built messages, and
whether the database write raises. -/
structure ChatEnv where
  freshSessionId : String
  freshMessageId : String
  freshUserEntryId : String
  recordId : String
  now : Int
  contextText : String
  contextSources : List Source
  system_prompt : String
  llm : List Message → String → LLMResponse
  dbFault : Bool

/-- The f-string user prompt of chat.py lines 122-129. -/
def chatUserPrompt (context_text message : String) : String :=
  "Context information:\n" ++ context_text ++
  "\n\nBased on the above context, please answer the following question:\n\nQuestion: " ++
  message ++ "\n\nAnswer:"

/-- chat.py lines 112-131: the last six history turns (skipped when the
history is empty, which python treats as falsy) followed by the user
prompt built from the retrieved context and the question. -/
def buildChatMessages (history : List ChatMessage) (context_text message : String) :
    List Message :=
  (if history.isEmpty then [] else
    (history.drop (history.length - 6)).map
      (fun m => { role := m.role, content := m.content })) ++
  [{ role := "user", content := chatUserPrompt context_text message }]

/-- `request.session_id or f"session_..."`: python `or` also replaces the
empty string. -/
def chatSessionId (req : ChatRequest) (env : ChatEnv) : String :=
  match req.session_id with
  | some s => if s == "" then "session_" ++ env.freshSessionId else s
  | none => "session_" ++ env.freshSessionId

/-- `request.user_id or "anonymous"`. -/
def chatUserId (req : ChatRequest) : String :=
  match req.user_id with
  | some u => if u == "" then "anonymous" else u
  | none => "anonymous"

/-- chat.py line 89: the generated `message_id`. -/
def chatMessageId (env : ChatEnv) : String := "msg_" ++ env.freshMessageId

/-- The message list handed to `generate_with_fallback`. -/
def chatLlmInput (req : ChatRequest) (env : ChatEnv) : List Message :=
  buildChatMessages req.conversation_history env.contextText req.message

/-- The LLM response used by the rest of the handler. -/
def chatLlmResponse (req : ChatRequest) (env : ChatEnv) : LLMResponse :=
  env.llm (chatLlmInput req env) env.system_prompt

/-- The `FeedbackInteraction` row built at chat.py lines 172-180; the
feedback columns stay at their defaults (NULL). -/
def chatInteraction (req : ChatRequest) (env : ChatEnv) : FeedbackInteraction :=
  { id := env.recordId
    user_id := chatUserId req
    session_id := chatSessionId req env
    message_id := chatMessageId env
    timestamp := env.now
    question := req.message
    response := (chatLlmResponse req env).content
    provider_used := some (chatLlmResponse req env).provider
    tokens_used := (chatLlmResponse req env).tokens_used
    feedback_type := none
    feedback_comment := none
    feedback_timestamp := none }

/-- The database-save section (chat.py lines 155-224): add, flush, commit.
`fault` injects an arbitrary exception in that section; the flush also
raises when the UNIQUE index on `message_id` is violated. On error the
transaction is rolled back, so the failing store is the original one. -/
def dbSaveSection (store : Store) (r : FeedbackInteraction) (fault : Bool) :
    Except String Store :=
  if fault then .error "database error"
  else if store.any (fun x => x.message_id == r.message_id) then
    .error "UNIQUE constraint failed: feedback_interactions.message_id"
  else .ok (store ++ [r])

/-- chat.py lines 93-99: create the session entry when absent. -/
def initSession (convs : Conversations) (sid : String) (now : Int) : Conversations :=
  if (convs.lookup sid).isSome then convs
  else convs ++ [(sid, { created_at := now, history := [], message_count := 0 })]

/-- Point update of one session's data in the dict. -/
def updateSession (convs : Conversations) (sid : String) (f : SessionData → SessionData) :
    Conversations :=
  convs.map (fun p => if p.1 == sid then (p.1, f p.2) else p)

/-- chat.py lines 245-260: append the user and assistant turns to the
session history and bump the counter. -/
def appendTurn (req : ChatRequest) (env : ChatEnv) (d : SessionData) : SessionData :=
  { d with
    history := d.history ++
      [{ id := "user_" ++ env.freshUserEntryId, role := "user",
         content := req.message, timestamp := env.now, provider := none },
       { id := chatMessageId env, role := "assistant",
         content := (chatLlmResponse req env).content, timestamp := env.now,
         provider := some (chatLlmResponse req env).provider }]
    message_count := d.message_count + 1 }

/-- The ChatResponse returned at chat.py lines 270-278. -/
def chatResponseOf (req : ChatRequest) (env : ChatEnv) : ChatResponse :=
  { response := (chatLlmResponse req env).content
    sources := env.contextSources
    session_id := chatSessionId req env
    success := (chatLlmResponse req env).finish_reason != "error"
    provider_used := (chatLlmResponse req env).provider
    tokens_used := (chatLlmResponse req env).tokens_used
    message_id := chatMessageId env }

/-- Everything one `chat` call produces: the HTTP result, the new store,
the new conversations dict, and (for inspection) the prompt handed to the
LLM factory. -/
structure ChatOutcome where
  result : Except HttpError ChatResponse
  store : Store
  convs : Conversations
  llmInput : List Message

/-- The `chat` handler (chat.py lines 54-287) after input validation:
create session state, build the prompt, call the factory, attempt the
database save (a failure is logged, rolled back and ignored), append to
the in-memory history, and return the response. -/
def chat (req : ChatRequest) (env : ChatEnv) (store : Store) (convs : Conversations) :
    ChatOutcome :=
  let sid := chatSessionId req env
  let convs1 := initSession convs sid env.now
  let store1 :=
    match dbSaveSection store (chatInteraction req env) env.dbFault with
    | .ok s => s
    | .error _ => store
  { result := .ok (chatResponseOf req env)
    store := store1
    convs := updateSession convs1 sid (appendTurn req env)
    llmInput := chatLlmInput req env }

/-- chat.py lines 365-382: drop every session strictly older than 86400
seconds; the two-phase collect-then-delete loop is a filter. -/
def cleanup_old_sessions (current_time : Int) (convs : Conversations) : Conversations :=
  convs.filter (fun p => decide (current_time - p.2.created_at ≤ 86400))

/-- `GET /api/chat/history/{session_id}` (chat.py lines 346-352). -/
def get_history (convs : Conversations) (sid : String) : Except HttpError SessionData :=
  match convs.lookup sid with
  | some d => .ok d
  | none => .error { status := 404, detail := "Session not found" }

/-- `DELETE /api/chat/history/{session_id}` (chat.py lines 355-362). -/
def delete_history (convs : Conversations) (sid : String) :
    Except HttpError String × Conversations :=
  if (convs.lookup sid).isSome then
    (.ok "History deleted successfully", convs.filter (fun p => !(p.1 == sid)))
  else
    (.error { status := 404, detail := "Session not found" }, convs)

/-- The `message_id` column carries a UNIQUE index (models.py line 16). -/
def uniqueMessageIds (store : Store) : Prop :=
  store.Pairwise (fun a b => a.message_id ≠ b.message_id)

/-- One execution of the `generate()` async generator of `chat_stream`
(chat.py lines 301-337), abstracted over what the environment does:
either no provider is available, or the provider streams `tokens` to
completion, or an exception interrupts the body after `tokensBefore`. -/
inductive StreamRun where
  | noProvider : StreamRun
  | streamed (tokens : List String) : StreamRun
  | errored (tokensBefore : List String) (errMsg : String) : StreamRun
deriving Repr, DecidableEq

/-- One SSE data chunk, `f"data: {token}\n\n"` with the braces expanded. -/
def sseChunk (t : String) : String := "data: " ++ t ++ "\n\n"

/-- The sentinel chunk of the streaming endpoint. -/
def sseDone : String := "data: [DONE]\n\n"

/-- The chunk sequence yielded by `generate()` on each of its paths:
the no-provider guard returns after one error chunk; a completed stream
is followed by the sentinel; an exception is caught and turns into a
final error chunk. -/
def chatStreamChunks : StreamRun → List String
  | .noProvider => ["data: Error: No provider available\n\n"]
  | .streamed ts => ts.map sseChunk ++ [sseDone]
  | .errored ts e => ts.map sseChunk ++ ["data: Error: " ++ e ++ "\n\n"]

/-- The f-string user prompt of the streaming endpoint
(chat.py lines 313-317). -/
def streamUserPrompt (context_text message : String) : String :=
  "Context: " ++ context_text ++ "\n\nQuestion: " ++ message ++ "\n\nAnswer:"

/-- chat.py lines 308-318: the streaming endpoint builds its prompt with
the same last-six window over the history (skipped when the history is
empty, which python treats as falsy) followed by its own
context-plus-question user message. -/
def buildStreamMessages (history : List ChatMessage) (context_text message : String) :
    List Message :=
  (if history.isEmpty then [] else
    (history.drop (history.length - 6)).map
      (fun m => { role := m.role, content := m.content })) ++
  [{ role := "user", content := streamUserPrompt context_text message }]

/-- What the provider's `stream_response` iteration does: it completes
with the streamed tokens, or raises after yielding some of them. -/
inductive StreamBody where
  | completed (tokens : List String) : StreamBody
  | raised (tokensBefore : List String) (errMsg : String) : StreamBody
deriving Repr, DecidableEq

/-- The ambient effects of one `chat_stream` call: the retriever output,
the configured system prompt, whether the factory yields a provider, and
the provider's streaming behaviour on the prompt handed to it. -/
structure StreamEnv where
  contextText : String
  system_prompt : String
  providerAvailable : Bool
  stream : List Message → String → StreamBody

/-- Which of the three `generate()` paths (chat.py lines 301-337) a call
takes: the no-provider guard, a completed stream over the built prompt,
or an exception part-way through it. -/
def streamRunOf (req : ChatRequest) (env : StreamEnv) : StreamRun :=
  if !env.providerAvailable then .noProvider
  else
    match env.stream
        (buildStreamMessages req.conversation_history env.contextText req.message)
        env.system_prompt with
    | .completed ts => .streamed ts
    | .raised ts e => .errored ts e

/-- What one run of the `generate()` generator produces: the prompt it
builds (and, when a provider is available, hands to
`provider.stream_response`) and the chunk sequence it yields. -/
structure StreamOutcome where
  llmInput : List Message
  chunks : List String

/-- The `generate()` generator of `chat_stream`, with the prompt it hands
to the provider observable alongside the yielded chunks. -/
def chat_stream_generate (req : ChatRequest) (env : StreamEnv) : StreamOutcome :=
  { llmInput := buildStreamMessages req.conversation_history env.contextText req.message
    chunks := chatStreamChunks (streamRunOf req env) }

/-- What one provider attempt does, as observed by the factory: a
successful non-empty generation, an empty result, or a raised error. -/
inductive ProviderOutcome where
  | success (content : String) (tokens : Option Nat) : ProviderOutcome
  | emptyResult : ProviderOutcome
  | threw (msg : String) : ProviderOutcome
deriving Repr, DecidableEq

/-- A configured provider and the outcome its call would have. -/
structure ProviderSpec where
  name : String
  outcome : ProviderOutcome
deriving Repr, DecidableEq

/-- An attempt that did not produce a usable response. -/
def failedOutcome : ProviderOutcome → Bool
  | .success _ _ => false
  | .emptyResult => true
  | .threw _ => true

/-- The factory's verdict: a response from some provider, or the last
failure after exhausting the list, or no provider configured at all. -/
inductive FallbackResult where
  | ok (provider content : String) (tokens : Option Nat) : FallbackResult
  | exhausted (provider : String) (failure : ProviderOutcome) : FallbackResult
  | noProviders : FallbackResult
deriving Repr, DecidableEq

/-- Modelled from the spec: the retry loop of `generate_with_fallback`.
`llm/factory.py` is not under `src/`; spec section 4 describes the loop as
trying each configured provider in order, moving on when a call raises or
comes back empty, and surfacing the last failure once all are exhausted.
`acc` carries the most recent failure. -/
def fallbackGo : List ProviderSpec → Option (String × ProviderOutcome) → FallbackResult
  | [], none => .noProviders
  | [], some (n, f) => .exhausted n f
  | p :: ps, _ =>
    match p.outcome with
    | .success c t => .ok p.name c t
    | .emptyResult => fallbackGo ps (some (p.name, .emptyResult))
    | .threw m => fallbackGo ps (some (p.name, .threw m))

/-- Modelled from the spec: `LLMFactory.generate_with_fallback`
(`llm/factory.py`, missing from `src/`), run over the configured provider
list in its priority order. -/
def generate_with_fallback (providers : List ProviderSpec) : FallbackResult :=
  fallbackGo providers none

/-- A concrete chat request, used to exercise the theorems. -/
def sampleReq : ChatRequest :=
  { message := "hi", conversation_history := [], session_id := none,
    provider := none, user_id := none }

/-- A concrete environment for one chat call. -/
def sampleEnv : ChatEnv :=
  { freshSessionId := "aaa", freshMessageId := "bbb", freshUserEntryId := "ccc",
    recordId := "rid", now := 100, contextText := "ctx", contextSources := [],
    system_prompt := "sys",
    llm := fun _ _ =>
      { content := "hello", model := "m", provider := "gemini",
        tokens_used := some 10, finish_reason := "stop", errMsg := none },
    dbFault := false }

end Brain

namespace Brain

theorem sameCore_refl (a : FeedbackInteraction) : sameCore a a := by
  simp [sameCore]

theorem applyFeedback_sameCore (r : FeedbackInteraction) (fb : FeedbackSubmit) (now : Int) :
    sameCore (applyFeedback r fb now) r := by
  simp [sameCore, applyFeedback]

theorem applyFeedback_message_id (r : FeedbackInteraction) (fb : FeedbackSubmit) (now : Int) :
    (applyFeedback r fb now).message_id = r.message_id := rfl

theorem updateFirst_length (s : Store) (fb : FeedbackSubmit) (now : Int) :
    (updateFirst s fb now).length = s.length := by
  induction s with
  | nil => rfl
  | cons r rs ih =>
    by_cases hm : (r.message_id == fb.message_id) = true
    · simp [updateFirst, hm]
    · simp only [updateFirst, if_neg hm, List.length_cons, ih]

theorem updateFirst_getElem? (s : Store) (fb : FeedbackSubmit) (now : Int) (i : Nat) :
    (updateFirst s fb now)[i]? = s[i]? ∨
      ∃ r, s[i]? = some r ∧ r.message_id = fb.message_id ∧
        (updateFirst s fb now)[i]? = some (applyFeedback r fb now) := by
  induction s generalizing i with
  | nil => left; rfl
  | cons r rs ih =>
    by_cases hm : (r.message_id == fb.message_id) = true
    · cases i with
      | zero =>
        right
        exact ⟨r, by simp, by simpa using hm, by simp [updateFirst, hm]⟩
      | succ n =>
        left
        simp [updateFirst, hm]
    · cases i with
      | zero =>
        left
        simp [updateFirst, hm]
      | succ n =>
        have := ih n
        simpa [updateFirst, hm] using this

theorem findInteraction_updateFirst_self (s : Store) (fb : FeedbackSubmit) (now : Int) :
    findInteraction (updateFirst s fb now) fb.message_id =
      (findInteraction s fb.message_id).map (fun r => applyFeedback r fb now) := by
  induction s with
  | nil => rfl
  | cons r rs ih =>
    by_cases hm : (r.message_id == fb.message_id) = true
    · have hm' : ((applyFeedback r fb now).message_id == fb.message_id) = true := by
        simpa [applyFeedback_message_id] using hm
      simp [updateFirst, hm, findInteraction, List.find?_cons_of_pos, hm']
    · have hm' : (r.message_id == fb.message_id) = false := by
        simpa using hm
      simp only [updateFirst, hm', Bool.false_eq_true, if_false]
      simp only [findInteraction, List.find?] at ih ⊢
      simp [hm', ih]

theorem submit_feedback_store_of_found (store : Store) (fb : FeedbackSubmit) (now : Int)
    (hval : fb.feedback_type = "thumbs_up" ∨ fb.feedback_type = "thumbs_down")
    (r : FeedbackInteraction) (hfound : findInteraction store fb.message_id = some r) :
    (submit_feedback store fb now).2 = updateFirst store fb now := by
  have hb : (fb.feedback_type == "thumbs_up" || fb.feedback_type == "thumbs_down") = true := by
    rcases hval with h | h <;> simp [h]
  simp [submit_feedback, hb, hfound]

/-- Claim C3: a feedback submission whose type is neither of the two accepted
values is rejected with HTTP 400, with the same result for every store
(so before, and independent of, any lookup) and with the store returned
unchanged. -/
theorem submit_feedback_bad_type_rejected (store : Store) (fb : FeedbackSubmit) (now : Int)
    (h1 : fb.feedback_type ≠ "thumbs_up") (h2 : fb.feedback_type ≠ "thumbs_down") :
    submit_feedback store fb now =
      (.error { status := 400, detail := "feedback_type must be thumbs_up or thumbs_down" },
       store) := by
  have hb1 : (fb.feedback_type == "thumbs_up") = false := by
    simp [h1]
  have hb2 : (fb.feedback_type == "thumbs_down") = false := by
    simp [h2]
  simp [submit_feedback, hb1, hb2]

/-- Witness for C3 at a concrete input. -/
theorem submit_feedback_bad_type_rejected_witness :
    submit_feedback
        [{ id := "i1", user_id := "u", session_id := "s", message_id := "m1",
           timestamp := 0, question := "q", response := "a",
           provider_used := some "gemini", tokens_used := none,
           feedback_type := none, feedback_comment := none, feedback_timestamp := none }]
        { message_id := "m1", feedback_type := "thumbs_sideways", feedback_comment := none }
        5 =
      (.error { status := 400, detail := "feedback_type must be thumbs_up or thumbs_down" },
       [{ id := "i1", user_id := "u", session_id := "s", message_id := "m1",
          timestamp := 0, question := "q", response := "a",
          provider_used := some "gemini", tokens_used := none,
          feedback_type := none, feedback_comment := none, feedback_timestamp := none }]) :=
  submit_feedback_bad_type_rejected _ _ _ (by decide) (by decide)

/-- Claim C2: a feedback submission with an accepted type whose `message_id`
matches no stored row yields HTTP 404 and leaves the store unchanged. -/
theorem submit_feedback_unknown_message_404 (store : Store) (fb : FeedbackSubmit) (now : Int)
    (hval : fb.feedback_type = "thumbs_up" ∨ fb.feedback_type = "thumbs_down")
    (hnone : findInteraction store fb.message_id = none) :
    submit_feedback store fb now =
      (.error { status := 404, detail := "Message not found" }, store) := by
  have hb : (fb.feedback_type == "thumbs_up" || fb.feedback_type == "thumbs_down") = true := by
    rcases hval with h | h <;> simp [h]
  simp [submit_feedback, hb, hnone]

/-- Witness for C2 at a concrete input. -/
theorem submit_feedback_unknown_message_404_witness :
    submit_feedback
        [{ id := "i1", user_id := "u", session_id := "s", message_id := "m1",
           timestamp := 0, question := "q", response := "a",
           provider_used := some "gemini", tokens_used := none,
           feedback_type := none, feedback_comment := none, feedback_timestamp := none }]
        { message_id := "m2", feedback_type := "thumbs_up", feedback_comment := none }
        5 =
      (.error { status := 404, detail := "Message not found" },
       [{ id := "i1", user_id := "u", session_id := "s", message_id := "m1",
          timestamp := 0, question := "q", response := "a",
          provider_used := some "gemini", tokens_used := none,
          feedback_type := none, feedback_comment := none, feedback_timestamp := none }]) :=
  submit_feedback_unknown_message_404 _ _ _ (.inl rfl) (by decide)

/-- Claim C7: an accepted feedback submission keeps the store the same length,
keeps every non-feedback field of every row unchanged, and leaves every
row whose `message_id` differs from the submitted one entirely unchanged. -/
theorem submit_feedback_frame (store : Store) (fb : FeedbackSubmit) (now : Int)
    (hval : fb.feedback_type = "thumbs_up" ∨ fb.feedback_type = "thumbs_down")
    (r0 : FeedbackInteraction) (hfound : findInteraction store fb.message_id = some r0) :
    (submit_feedback store fb now).2.length = store.length ∧
    (∀ (i : Nat) (a b : FeedbackInteraction),
      (submit_feedback store fb now).2[i]? = some a → store[i]? = some b →
      sameCore a b) ∧
    (∀ (i : Nat) (b : FeedbackInteraction), store[i]? = some b →
      b.message_id ≠ fb.message_id →
      (submit_feedback store fb now).2[i]? = some b) := by
  rw [submit_feedback_store_of_found store fb now hval r0 hfound]
  refine ⟨updateFirst_length store fb now, ?_, ?_⟩
  · intro i a b ha hb
    rcases updateFirst_getElem? store fb now i with h | ⟨r, hr, _, hr'⟩
    · rw [h, hb] at ha
      obtain rfl : b = a := Option.some.inj ha
      exact sameCore_refl _
    · rw [hr'] at ha
      rw [hr] at hb
      obtain rfl : applyFeedback r fb now = a := Option.some.inj ha
      obtain rfl : r = b := Option.some.inj hb
      exact applyFeedback_sameCore _ fb now
  · intro i b hb hne
    rcases updateFirst_getElem? store fb now i with h | ⟨r, hr, hrid, _⟩
    · rw [h, hb]
    · rw [hr] at hb
      obtain rfl : r = b := Option.some.inj hb
      exact absurd hrid hne

/-- Witness for C7 at a concrete input. -/
theorem submit_feedback_frame_witness :
    (submit_feedback sampleStore
        { message_id := "m1", feedback_type := "thumbs_up", feedback_comment := some "good" }
        5).2.length = sampleStore.length ∧
    (∀ (i : Nat) (a b : FeedbackInteraction), (submit_feedback sampleStore
        { message_id := "m1", feedback_type := "thumbs_up", feedback_comment := some "good" }
        5).2[i]? = some a → sampleStore[i]? = some b → sameCore a b) ∧
    (∀ (i : Nat) (b : FeedbackInteraction), sampleStore[i]? = some b →
      b.message_id ≠ "m1" →
      (submit_feedback sampleStore
        { message_id := "m1", feedback_type := "thumbs_up", feedback_comment := some "good" }
        5).2[i]? = some b) :=
  submit_feedback_frame sampleStore
    { message_id := "m1", feedback_type := "thumbs_up", feedback_comment := some "good" }
    5 (.inl rfl) sampleRecord (by decide)

theorem submit_feedback_found_step (store : Store) (fb : FeedbackSubmit) (now : Int)
    (hval : fb.feedback_type = "thumbs_up" ∨ fb.feedback_type = "thumbs_down")
    (r : FeedbackInteraction) (hfound : findInteraction store fb.message_id = some r) :
    findInteraction (submit_feedback store fb now).2 fb.message_id =
      some (applyFeedback r fb now) := by
  rw [submit_feedback_store_of_found store fb now hval r hfound,
    findInteraction_updateFirst_self, hfound]
  rfl

theorem submitAll_cons_last (m : String) (ps : List (FeedbackSubmit × Int)) :
    ∀ (p : FeedbackSubmit × Int) (store : Store) (r0 : FeedbackInteraction),
    (∀ x ∈ p :: ps, x.1.message_id = m ∧
      (x.1.feedback_type = "thumbs_up" ∨ x.1.feedback_type = "thumbs_down")) →
    findInteraction store m = some r0 →
    ∃ pl r, (p :: ps).getLast? = some pl ∧
      findInteraction (submitAll store (p :: ps)) m = some r ∧
      r.feedback_type = some pl.1.feedback_type ∧
      r.feedback_comment = pl.1.feedback_comment ∧
      r.feedback_timestamp = some pl.2 := by
  induction ps with
  | nil =>
    intro p store r0 hall hfound
    obtain ⟨hpm, hpval⟩ := hall p (List.mem_cons_self p [])
    have hstep : findInteraction (submit_feedback store p.1 p.2).2 m =
        some (applyFeedback r0 p.1 p.2) := by
      rw [← hpm] at hfound ⊢
      exact submit_feedback_found_step store p.1 p.2 hpval r0 hfound
    refine ⟨p, applyFeedback r0 p.1 p.2, rfl, ?_, rfl, rfl, rfl⟩
    simpa [submitAll] using hstep
  | cons q qs ih =>
    intro p store r0 hall hfound
    obtain ⟨hpm, hpval⟩ := hall p (List.mem_cons_self p (q :: qs))
    have hstep : findInteraction (submit_feedback store p.1 p.2).2 m =
        some (applyFeedback r0 p.1 p.2) := by
      rw [← hpm] at hfound ⊢
      exact submit_feedback_found_step store p.1 p.2 hpval r0 hfound
    have hsub : submitAll store (p :: q :: qs) =
        submitAll (submit_feedback store p.1 p.2).2 (q :: qs) := rfl
    obtain ⟨pl, r, hlast, hfind, h1, h2, h3⟩ :=
      ih q (submit_feedback store p.1 p.2).2 (applyFeedback r0 p.1 p.2)
        (fun x hx => hall x (List.mem_cons_of_mem p hx)) hstep
    exact ⟨pl, r, by rw [List.getLast?_cons_cons]; exact hlast,
      by rw [hsub]; exact hfind, h1, h2, h3⟩

/-- Claim C6: after a nonempty sequence of accepted feedback submissions for the
same existing message, the stored feedback fields are exactly those of the
final submission. -/
theorem submit_feedback_last_write_wins (store : Store) (m : String)
    (subs : List (FeedbackSubmit × Int)) (hne : subs ≠ [])
    (hall : ∀ p ∈ subs, p.1.message_id = m ∧
      (p.1.feedback_type = "thumbs_up" ∨ p.1.feedback_type = "thumbs_down"))
    (r0 : FeedbackInteraction) (hfound : findInteraction store m = some r0) :
    ∃ p r, subs.getLast? = some p ∧
      findInteraction (submitAll store subs) m = some r ∧
      r.feedback_type = some p.1.feedback_type ∧
      r.feedback_comment = p.1.feedback_comment ∧
      r.feedback_timestamp = some p.2 := by
  cases subs with
  | nil => exact absurd rfl hne
  | cons p ps => exact submitAll_cons_last m ps p store r0 hall hfound

/-- Witness for C6 at a concrete input: two submissions, the second wins. -/
theorem submit_feedback_last_write_wins_witness :
    ∃ p r,
      ([({ message_id := "m1", feedback_type := "thumbs_up", feedback_comment := none },
          (5 : Int)),
        ({ message_id := "m1", feedback_type := "thumbs_down",
           feedback_comment := some "bad" }, (9 : Int))] :
          List (FeedbackSubmit × Int)).getLast? = some p ∧
      findInteraction
        (submitAll sampleStore
          [({ message_id := "m1", feedback_type := "thumbs_up", feedback_comment := none }, 5),
           ({ message_id := "m1", feedback_type := "thumbs_down",
              feedback_comment := some "bad" }, 9)]) "m1" = some r ∧
      r.feedback_type = some p.1.feedback_type ∧
      r.feedback_comment = p.1.feedback_comment ∧
      r.feedback_timestamp = some p.2 :=
  submit_feedback_last_write_wins sampleStore "m1"
    [({ message_id := "m1", feedback_type := "thumbs_up", feedback_comment := none }, 5),
     ({ message_id := "m1", feedback_type := "thumbs_down",
        feedback_comment := some "bad" }, 9)]
    (by decide) (by decide) sampleRecord (by decide)

/-- Claim C1: when the database-save section of `chat` raises, the
transaction is rolled back (the store comes back unchanged) and the HTTP
chat response is still returned — a persistence failure never becomes an
HTTP error. -/
theorem chat_db_failure_still_returns (req : ChatRequest) (env : ChatEnv)
    (store : Store) (convs : Conversations) (msg : String)
    (hfail : dbSaveSection store (chatInteraction req env) env.dbFault = .error msg) :
    (chat req env store convs).result = .ok (chatResponseOf req env) ∧
    (chat req env store convs).store = store := by
  refine ⟨rfl, ?_⟩
  simp [chat, hfail]

/-- Witness for C1: an injected database fault on a concrete call. -/
theorem chat_db_failure_still_returns_witness :
    (chat sampleReq { sampleEnv with dbFault := true } sampleStore []).result =
      .ok (chatResponseOf sampleReq { sampleEnv with dbFault := true }) ∧
    (chat sampleReq { sampleEnv with dbFault := true } sampleStore []).store =
      sampleStore :=
  chat_db_failure_still_returns sampleReq { sampleEnv with dbFault := true }
    sampleStore [] "database error" rfl

/-- Claim C4: when the drawn `message_id` is fresh (which is what the
uuid4 draw provides), the chat call returns exactly that `message_id`, it
differs from the `message_id` of every previously stored record, and
global uniqueness of `message_id` over the store is preserved. -/
theorem chat_message_id_unique (req : ChatRequest) (env : ChatEnv)
    (store : Store) (convs : Conversations)
    (hunique : uniqueMessageIds store)
    (hfresh : ∀ r ∈ store, r.message_id ≠ chatMessageId env) :
    uniqueMessageIds (chat req env store convs).store ∧
    ∃ resp, (chat req env store convs).result = .ok resp ∧
      resp.message_id = chatMessageId env ∧
      ∀ r ∈ store, r.message_id ≠ resp.message_id := by
  constructor
  · cases hdb : dbSaveSection store (chatInteraction req env) env.dbFault with
    | error m => simpa [chat, hdb] using hunique
    | ok s =>
      have hs : store ++ [chatInteraction req env] = s := by
        unfold dbSaveSection at hdb
        split at hdb
        · exact Except.noConfusion hdb
        · split at hdb
          · exact Except.noConfusion hdb
          · exact Except.ok.inj hdb
      have hu : uniqueMessageIds (store ++ [chatInteraction req env]) := by
        rw [uniqueMessageIds, List.pairwise_append]
        refine ⟨hunique, List.pairwise_singleton _ _, ?_⟩
        intro a ha b hb
        obtain rfl : b = chatInteraction req env := List.mem_singleton.mp hb
        exact hfresh a ha
      rw [hs] at hu
      simpa [chat, hdb] using hu
  · exact ⟨chatResponseOf req env, rfl, rfl, fun r hr => hfresh r hr⟩

/-- Witness for C4 at a concrete call over a one-row store. -/
theorem chat_message_id_unique_witness :
    uniqueMessageIds (chat sampleReq sampleEnv sampleStore []).store ∧
    ∃ resp, (chat sampleReq sampleEnv sampleStore []).result = .ok resp ∧
      resp.message_id = chatMessageId sampleEnv ∧
      ∀ r ∈ sampleStore, r.message_id ≠ resp.message_id :=
  chat_message_id_unique sampleReq sampleEnv sampleStore []
    (by simp [uniqueMessageIds, sampleStore])
    (by intro r hr; simp [sampleStore, sampleRecord] at hr; simp [hr, chatMessageId, sampleEnv])

theorem window_if_isEmpty (history : List ChatMessage) (f : ChatMessage → Message) :
    (if history.isEmpty then ([] : List Message) else
      (history.drop (history.length - 6)).map f) =
    (history.drop (history.length - 6)).map f := by
  cases history with
  | nil => simp
  | cons a l => simp

/-- Claim C9: in the chat handler and in the streaming handler alike, the
prompt handed to the LLM is the last at-most-six turns of the supplied
history (older turns silently dropped), followed by exactly one user
message built from the retrieved context and the current question (each
handler with its own f-string). -/
theorem chat_prompt_window (req : ChatRequest) (env : ChatEnv) (senv : StreamEnv)
    (store : Store) (convs : Conversations) :
    (chat req env store convs).llmInput =
      (req.conversation_history.drop (req.conversation_history.length - 6)).map
        (fun m => { role := m.role, content := m.content }) ++
      [{ role := "user", content := chatUserPrompt env.contextText req.message }] ∧
    (chat_stream_generate req senv).llmInput =
      (req.conversation_history.drop (req.conversation_history.length - 6)).map
        (fun m => { role := m.role, content := m.content }) ++
      [{ role := "user", content := streamUserPrompt senv.contextText req.message }] ∧
    (req.conversation_history.drop (req.conversation_history.length - 6)).length ≤ 6 ∧
    List.IsSuffix (req.conversation_history.drop (req.conversation_history.length - 6))
      req.conversation_history := by
  refine ⟨?_, ?_, ?_, List.drop_suffix _ _⟩
  · show buildChatMessages req.conversation_history env.contextText req.message = _
    rw [buildChatMessages, window_if_isEmpty]
  · show buildStreamMessages req.conversation_history senv.contextText req.message = _
    rw [buildStreamMessages, window_if_isEmpty]
  · rw [List.length_drop]
    omega

theorem lookup_eq_none_of_not_mem_keys (convs : Conversations) (sid : String)
    (h : sid ∉ convs.map Prod.fst) : convs.lookup sid = none := by
  induction convs with
  | nil => rfl
  | cons q rest ih =>
    obtain ⟨k, v⟩ := q
    have h1 : sid ≠ k := by
      intro he
      exact h (by simp [he])
    have hb : (sid == k) = false := by simpa using h1
    rw [List.lookup, hb]
    exact ih (fun hm => h (by simp; right; simpa using hm))

theorem lookup_filter_nodup (convs : Conversations) (p : String × SessionData → Bool)
    (sid : String) (d : SessionData)
    (hnd : (convs.map Prod.fst).Nodup) (hl : convs.lookup sid = some d) :
    (convs.filter p).lookup sid = if p (sid, d) then some d else none := by
  induction convs with
  | nil => exact Option.noConfusion hl
  | cons q rest ih =>
    obtain ⟨k, v⟩ := q
    rw [List.map_cons, List.nodup_cons] at hnd
    by_cases hk : (sid == k) = true
    · have hsk : sid = k := by simpa using hk
      rw [List.lookup, hk] at hl
      have hvd : v = d := Option.some.inj hl
      subst hvd
      subst hsk
      rw [List.filter_cons]
      by_cases hp : p (sid, v) = true
      · rw [if_pos hp, if_pos hp]
        simp [List.lookup]
      · rw [if_neg hp, if_neg hp]
        refine lookup_eq_none_of_not_mem_keys _ _ ?_
        intro hmem
        rw [List.mem_map] at hmem
        obtain ⟨x, hx, hfx⟩ := hmem
        exact hnd.1 (by rw [List.mem_map]; exact ⟨x, List.mem_of_mem_filter hx, hfx⟩)
    · have hk' : (sid == k) = false := by simpa using hk
      rw [List.lookup, hk'] at hl
      have := ih hnd.2 hl
      rw [List.filter_cons]
      by_cases hp : p (k, v) = true
      · rw [if_pos hp, List.lookup, hk']
        exact this
      · rw [if_neg (by simpa using hp)]
        exact this

/-- Claim C10: after `cleanup_old_sessions` runs at time `t`, a session
strictly more than 86400 seconds old is gone (a subsequent GET or DELETE
of its history answers 404), while a session at most 86400 seconds old
keeps its entry and its data. -/
theorem cleanup_old_sessions_spec (convs : Conversations) (t : Int) (sid : String)
    (d : SessionData) (hnd : (convs.map Prod.fst).Nodup)
    (hl : convs.lookup sid = some d) :
    (t - d.created_at > 86400 →
      get_history (cleanup_old_sessions t convs) sid =
        .error { status := 404, detail := "Session not found" } ∧
      (delete_history (cleanup_old_sessions t convs) sid).1 =
        .error { status := 404, detail := "Session not found" }) ∧
    (t - d.created_at ≤ 86400 →
      (cleanup_old_sessions t convs).lookup sid = some d ∧
      get_history (cleanup_old_sessions t convs) sid = .ok d) := by
  have hlf := lookup_filter_nodup convs
    (fun p => decide (t - p.2.created_at ≤ 86400)) sid d hnd hl
  constructor
  · intro hexp
    have hnone : (cleanup_old_sessions t convs).lookup sid = none := by
      show (convs.filter _).lookup sid = none
      rw [hlf]
      simp only [decide_eq_true_eq]
      rw [if_neg (by omega)]
    exact ⟨by rw [get_history, hnone], by rw [delete_history]; simp [hnone]⟩
  · intro hok
    have hsome : (cleanup_old_sessions t convs).lookup sid = some d := by
      show (convs.filter _).lookup sid = some d
      rw [hlf]
      simp only [decide_eq_true_eq]
      rw [if_pos hok]
    exact ⟨hsome, by rw [get_history, hsome]⟩

/-- Witness for C10: one expired session, removed and 404 afterwards. -/
theorem cleanup_old_sessions_spec_witness :
    get_history
      (cleanup_old_sessions 100000
        [("s1", { created_at := 0, history := [], message_count := 0 })]) "s1" =
      .error { status := 404, detail := "Session not found" } ∧
    (delete_history
      (cleanup_old_sessions 100000
        [("s1", { created_at := 0, history := [], message_count := 0 })]) "s1").1 =
      .error { status := 404, detail := "Session not found" } :=
  (cleanup_old_sessions_spec
    [("s1", { created_at := 0, history := [], message_count := 0 })] 100000 "s1"
    { created_at := 0, history := [], message_count := 0 }
    (by decide) (by decide)).1 (by decide)

/-- Claim C8 counterexample: on the no-provider path the stream consists of
one error chunk and the sentinel chunk never appears, so the stream is not
terminated by the sentinel on every execution path. -/
theorem chat_stream_no_sentinel_cex :
    chatStreamChunks .noProvider = ["data: Error: No provider available\n\n"] ∧
    ∀ c ∈ chatStreamChunks .noProvider, c ≠ sseDone := by
  decide

/-- Claim C8 as amended: only a successfully completed stream is terminated
by the sentinel chunk; the no-provider guard yields exactly one error chunk
and returns, and an exception ends the stream with a final error chunk,
which is never the sentinel. -/
theorem chat_stream_sentinel_amended (run : StreamRun) :
    (∀ ts, run = .streamed ts → (chatStreamChunks run).getLast? = some sseDone) ∧
    (run = .noProvider →
      chatStreamChunks run = ["data: Error: No provider available\n\n"]) ∧
    (∀ ts e, run = .errored ts e →
      (chatStreamChunks run).getLast? = some ("data: Error: " ++ e ++ "\n\n") ∧
      "data: Error: " ++ e ++ "\n\n" ≠ sseDone) := by
  refine ⟨?_, ?_, ?_⟩
  · rintro ts rfl
    simp [chatStreamChunks]
  · rintro rfl
    rfl
  · rintro ts e rfl
    refine ⟨by simp [chatStreamChunks], ?_⟩
    intro h
    have h2 := congrArg String.length h
    rw [String.length_append, String.length_append] at h2
    have e1 : "data: Error: ".length = 13 := rfl
    have e2 : "\n\n".length = 2 := rfl
    have e3 : sseDone.length = 14 := rfl
    rw [e1, e2, e3] at h2
    omega

/-- Witness for the amended C8: a completed two-token stream ends with the
sentinel. -/
theorem chat_stream_sentinel_amended_witness :
    (chatStreamChunks (.streamed ["hel", "lo"])).getLast? = some sseDone :=
  (chat_stream_sentinel_amended (.streamed ["hel", "lo"])).1 ["hel", "lo"] rfl

theorem fallbackGo_all_failed :
    ∀ (ps : List ProviderSpec) (q : ProviderSpec), ps.getLast? = some q →
    (∀ x ∈ ps, failedOutcome x.outcome = true) →
    ∀ acc, fallbackGo ps acc = .exhausted q.name q.outcome := by
  intro ps
  induction ps with
  | nil =>
    intro q hq
    exact Option.noConfusion hq
  | cons p rest ih =>
    intro q hq hall acc
    have hp := hall p (List.mem_cons_self p rest)
    cases rest with
    | nil =>
      obtain rfl : p = q := by simpa using hq
      cases hpo : p.outcome with
      | success c t => rw [hpo] at hp; simp [failedOutcome] at hp
      | emptyResult => simp [fallbackGo, hpo]
      | threw m => simp [fallbackGo, hpo]
    | cons r rs =>
      have hq' : (r :: rs).getLast? = some q := by
        rw [List.getLast?_cons_cons] at hq
        exact hq
      have hall' : ∀ x ∈ r :: rs, failedOutcome x.outcome = true :=
        fun x hx => hall x (List.mem_cons_of_mem p hx)
      cases hpo : p.outcome with
      | success c t => rw [hpo] at hp; simp [failedOutcome] at hp
      | emptyResult =>
        simp only [fallbackGo, hpo]
        exact ih q hq' hall' (some (p.name, ProviderOutcome.emptyResult))
      | threw m =>
        simp only [fallbackGo, hpo]
        exact ih q hq' hall' (some (p.name, ProviderOutcome.threw m))

theorem fallbackGo_first_success :
    ∀ (pre : List ProviderSpec) (p : ProviderSpec) (post : List ProviderSpec)
      (c : String) (t : Option Nat),
    (∀ q ∈ pre, failedOutcome q.outcome = true) → p.outcome = .success c t →
    ∀ acc, fallbackGo (pre ++ p :: post) acc = .ok p.name c t := by
  intro pre
  induction pre with
  | nil =>
    intro p post c t _ hp acc
    simp [fallbackGo, hp]
  | cons q rest ih =>
    intro p post c t hpre hp acc
    have hq := hpre q (List.mem_cons_self q rest)
    have hrest : ∀ x ∈ rest, failedOutcome x.outcome = true :=
      fun x hx => hpre x (List.mem_cons_of_mem q hx)
    cases hqo : q.outcome with
    | success c' t' => rw [hqo] at hq; simp [failedOutcome] at hq
    | emptyResult =>
      rw [List.cons_append]
      simp only [fallbackGo, hqo]
      exact ih p post c t hrest hp (some (q.name, ProviderOutcome.emptyResult))
    | threw m =>
      rw [List.cons_append]
      simp only [fallbackGo, hqo]
      exact ih p post c t hrest hp (some (q.name, ProviderOutcome.threw m))

/-- Claim C5 (over the factory modelled from the spec): when every provider
before a successful one fails (raises or comes back empty), the loop
returns that provider's response; when every configured provider fails,
the loop surfaces the last provider's error or empty result. -/
theorem generate_with_fallback_spec :
    (∀ (pre post : List ProviderSpec) (p : ProviderSpec) (c : String) (t : Option Nat),
      (∀ q ∈ pre, failedOutcome q.outcome = true) → p.outcome = .success c t →
      generate_with_fallback (pre ++ p :: post) = .ok p.name c t) ∧
    (∀ (ps : List ProviderSpec) (q : ProviderSpec), ps.getLast? = some q →
      (∀ x ∈ ps, failedOutcome x.outcome = true) →
      generate_with_fallback ps = .exhausted q.name q.outcome) := by
  constructor
  · intro pre post p c t hpre hp
    exact fallbackGo_first_success pre p post c t hpre hp none
  · intro ps q hlast hall
    exact fallbackGo_all_failed ps q hlast hall none

/-- Witness for C5: the first provider raises, the second succeeds, and
with all three failing the last failure is surfaced. -/
theorem generate_with_fallback_spec_witness :
    generate_with_fallback
      [{ name := "gemini", outcome := .threw "boom" },
       { name := "openai", outcome := .success "hi" (some 5) },
       { name := "claude", outcome := .emptyResult }] = .ok "openai" "hi" (some 5) ∧
    generate_with_fallback
      [{ name := "gemini", outcome := .threw "boom" },
       { name := "claude", outcome := .emptyResult }] =
      .exhausted "claude" .emptyResult :=
  ⟨generate_with_fallback_spec.1 [{ name := "gemini", outcome := .threw "boom" }]
    [{ name := "claude", outcome := .emptyResult }]
    { name := "openai", outcome := .success "hi" (some 5) } "hi" (some 5)
    (by decide) rfl,
   generate_with_fallback_spec.2
    [{ name := "gemini", outcome := .threw "boom" },
     { name := "claude", outcome := .emptyResult }]
    { name := "claude", outcome := .emptyResult } (by decide) (by decide)⟩

end Brain
